import Mathlib

/-!
Shallow embedding of `src/index.tsx`, a single-page browser tool that sends a
user prompt to a generative-AI endpoint and shows an improved prompt plus an
explanation.  The DOM, local storage and the in-memory credential are modelled
as one explicit state record; each event handler of the source becomes a pure
state transformer.  The single network request is modelled by an oracle value
(`ApiResult`) describing what the awaited call would produce, and the improve
handler returns both the state at its suspension point (present exactly when a
request was issued) and the final state.
-/

/-- Truthiness of a JS string-or-null value: `null`, `undefined` and the empty
string are falsy, every other string is truthy. -/
def strTruthy : Option String → Bool
  | none => false
  | some s => s != ""

/-- Whitespace for JS `String.prototype.trim` (the ASCII subset). -/
def isWs (c : Char) : Bool :=
  c = ' ' || c = '\t' || c = '\n' || c = '\r'

/-- Drop leading whitespace characters from a character list. -/
def dropWs : List Char → List Char
  | [] => []
  | c :: cs => if isWs c then dropWs cs else c :: cs

/-- JS `String.prototype.trim`: remove leading and trailing whitespace (drop
the leading run, reverse, drop the now-leading trailing run, reverse back). -/
def jsTrim (s : String) : String :=
  ⟨(dropWs (dropWs s.data).reverse).reverse⟩

/-- Whether the pattern occurs at the head of the character list. -/
def charsLeading : List Char → List Char → Bool
  | [], _ => true
  | _ :: _, [] => false
  | a :: as, b :: bs => a = b && charsLeading as bs

/-- Whether the pattern occurs anywhere in the character list. -/
def charsContain (pat : List Char) : List Char → Bool
  | [] => charsLeading pat []
  | c :: rest => charsLeading pat (c :: rest) || charsContain pat rest

/-- JS `String.prototype.includes`: `includes s pat` is `s.includes(pat)`. -/
def includes (s pat : String) : Bool :=
  charsContain pat.data s.data

/-- The observable state of the page: the in-memory credential (`userApiKey`),
the value persisted in local storage under the fixed key `gemini-api-key`
(`storage`), the four text fields, the status line, the modal visibility
(`modalHidden` mirrors the `hidden` CSS class on the modal) and the improve
button state. -/
structure AppState where
  userApiKey : Option String
  storage : Option String
  originalPrompt : String
  improvedPrompt : String
  explanation : String
  statusText : String
  apiKeyInput : String
  modalHidden : Bool
  improveDisabled : Bool
  improveLabel : String
deriving Repr, DecidableEq

/-- `showApiKeyModal` of the source: preload the input with the current key
(or the empty string) and remove the `hidden` class from the modal. -/
def showApiKeyModal (st : AppState) : AppState :=
  { st with apiKeyInput := st.userApiKey.getD "", modalHidden := false }

/-- `hideApiKeyModal` of the source: add the `hidden` class to the modal. -/
def hideApiKeyModal (st : AppState) : AppState :=
  { st with modalHidden := true }

/-- `updateUiForApiKey` of the source: the improve button is disabled exactly
when the in-memory key is falsy (`null` or the empty string). -/
def updateUiForApiKey (st : AppState) : AppState :=
  { st with improveDisabled := !strTruthy st.userApiKey }

/-- `saveApiKey` of the source: trim the modal input; a truthy trimmed value
is stored in memory and in local storage and the modal is hidden, otherwise
the key is cleared from memory and storage; either way the status line and
the button state are updated. -/
def saveApiKey (st : AppState) : AppState :=
  let key := jsTrim st.apiKeyInput
  let st1 :=
    if key ≠ "" then
      hideApiKeyModal
        { st with
          userApiKey := some key, storage := some key,
          statusText := "API Key saved. You can now improve your prompts!" }
    else
      { st with
        userApiKey := none, storage := none,
        statusText := "API Key removed. Please set a key to continue." }
  updateUiForApiKey st1

/-- The storage-loading tail of `initializeApp` (the listener registrations
have no state effect in this model): read the stored key into memory, prompt
for a key when it is falsy, and update the button state. -/
def initializeApp (st : AppState) : AppState :=
  let st1 := { st with userApiKey := st.storage }
  let st2 :=
    if strTruthy st1.userApiKey then st1
    else
      { showApiKeyModal st1 with
        statusText := "Please set your Gemini API Key to begin." }
  updateUiForApiKey st2

/-- `setLoadingState` of the source: the improve button is disabled and
relabelled while a request is in flight. -/
def setLoadingState (isLoading : Bool) (st : AppState) : AppState :=
  { st with
    improveDisabled := isLoading,
    improveLabel :=
      if isLoading then "<span>Improving...</span>" else "Improve Prompt" }

/-- `clearOutputs` of the source: blank both output text areas. -/
def clearOutputs (st : AppState) : AppState :=
  { st with improvedPrompt := "", explanation := "" }

/-- The JSON object obtained from `JSON.parse(result.text)`, restricted to the
two properties the handler reads; a missing property is `none` (JS
`undefined`). -/
structure ParsedResponse where
  improvedPrompt : Option String
  explanation : Option String
deriving Repr, DecidableEq

/-- Oracle for the single awaited request: either the call and `JSON.parse`
succeed with the given parsed object, or something in the `try` block throws
an error carrying the given message. -/
inductive ApiResult where
  | success (parsed : ParsedResponse)
  | failure (message : String)
deriving Repr, DecidableEq

/-- The `catch` block of `handleImproveClick`: an error message containing
`API key not valid` sets the invalid-key status and reopens the modal, any
other message sets the generic status; in both cases the error detail is then
written into the explanation output field. -/
def handleImproveError (st : AppState) (msg : String) : AppState :=
  let st1 :=
    if includes msg "API key not valid" then
      showApiKeyModal
        { st with
          statusText := "Your API Key is not valid. Please check it in settings." }
    else
      { st with
        statusText := "An error occurred. Please check the console and try again." }
  { st1 with explanation := "Error Details: " ++ msg }

/-- Result of one invocation of the improve handler: `inFlight` is the state
at the `await` suspension point and is `some` exactly when a network request
was issued; `final` is the state when the handler returns. -/
structure ImproveOutcome where
  inFlight : Option AppState
  final : AppState
deriving Repr, DecidableEq

/-- Whether the invocation issued the network request. -/
def networkCalled (o : ImproveOutcome) : Bool :=
  o.inFlight.isSome

/-- `handleImproveClick` of the source.  A falsy key returns early after
prompting for a credential; an empty trimmed prompt returns early after
updating only the status line.  Otherwise the button is disabled, the outputs
are cleared, the request is issued, and the response is either written to the
outputs (when both parsed fields are truthy) or routed through the error
path; the `finally` clause re-enables the button. -/
def handleImproveClick (st : AppState) (api : ApiResult) : ImproveOutcome :=
  if !strTruthy st.userApiKey then
    { inFlight := none,
      final :=
        showApiKeyModal
          { st with
            statusText := "Please set your API key in the settings first." } }
  else if jsTrim st.originalPrompt = "" then
    { inFlight := none,
      final := { st with statusText := "Please enter a prompt first." } }
  else
    let pending :=
      { clearOutputs (setLoadingState true st) with
        statusText := "Optimizing with AI..." }
    let settled :=
      match api with
      | ApiResult.success parsed =>
        if strTruthy parsed.improvedPrompt && strTruthy parsed.explanation then
          { pending with
            improvedPrompt := parsed.improvedPrompt.getD "",
            explanation := parsed.explanation.getD "",
            statusText := "Prompt improved successfully!" }
        else
          handleImproveError pending "Invalid response format from the AI."
      | ApiResult.failure msg => handleImproveError pending msg
    { inFlight := some pending, final := setLoadingState false settled }

/-- A blank page state used to build concrete test states. -/
def st0 : AppState :=
  { userApiKey := none, storage := none, originalPrompt := "",
    improvedPrompt := "", explanation := "", statusText := "",
    apiKeyInput := "", modalHidden := true, improveDisabled := true,
    improveLabel := "Improve Prompt" }

/-- A state with a stored credential and a non-blank prompt, ready to issue a
request. -/
def stReady : AppState :=
  { st0 with
    userApiKey := some "key-1", storage := some "key-1",
    originalPrompt := "Write a poem", improveDisabled := false }

/-- The invalid-format error message thrown for schema-violating responses
does not contain the invalid-credential marker, so it is classified as a
generic error. -/
theorem invalid_format_not_key_marker :
    includes "Invalid response format from the AI." "API key not valid" = false := by
  decide

/-- Claim C1: with no stored credential (the in-memory API key is null), the
improve handler issues no network call, sets the status line to the
prompt-for-credential message, and opens the credential-entry modal. -/
theorem improve_no_credential (st : AppState) (api : ApiResult)
    (h : st.userApiKey = none) :
    networkCalled (handleImproveClick st api) = false ∧
    (handleImproveClick st api).final.statusText =
      "Please set your API key in the settings first." ∧
    (handleImproveClick st api).final.modalHidden = false := by
  simp [handleImproveClick, networkCalled, h, strTruthy, showApiKeyModal]

/-- Witness for C1 at a concrete blank state and a concrete oracle. -/
theorem improve_no_credential_w :
    networkCalled (handleImproveClick st0 (ApiResult.failure "boom")) = false ∧
    (handleImproveClick st0 (ApiResult.failure "boom")).final.statusText =
      "Please set your API key in the settings first." ∧
    (handleImproveClick st0 (ApiResult.failure "boom")).final.modalHidden = false :=
  improve_no_credential st0 (ApiResult.failure "boom") rfl

/-- Claim C2: with a stored (truthy) credential and a prompt that trims to
the empty string, the improve handler issues no network call and the only
state change is the status line asking for a prompt. -/
theorem improve_empty_prompt (st : AppState) (api : ApiResult)
    (hk : strTruthy st.userApiKey = true) (hp : jsTrim st.originalPrompt = "") :
    handleImproveClick st api =
      { inFlight := none,
        final := { st with statusText := "Please enter a prompt first." } } := by
  simp [handleImproveClick, hk, hp]

/-- Witness for C2 at a concrete state whose prompt is whitespace only. -/
theorem improve_empty_prompt_w :
    handleImproveClick { stReady with originalPrompt := "  " }
        (ApiResult.failure "boom") =
      { inFlight := none,
        final :=
          { stReady with
            originalPrompt := "  ",
            statusText := "Please enter a prompt first." } } :=
  improve_empty_prompt { stReady with originalPrompt := "  " }
    (ApiResult.failure "boom") (by decide) (by decide)

/-- Claim C5: a successful response whose parsed JSON carries both required
fields with truthy (non-empty) string values is written into the two output
fields, the success status is set, and any text previously in the outputs is
overwritten (the outputs equal exactly the response values). -/
theorem improve_success_populates (st : AppState) (ip ex : String)
    (hk : strTruthy st.userApiKey = true) (hp : jsTrim st.originalPrompt ≠ "")
    (hip : ip ≠ "") (hex : ex ≠ "") :
    (handleImproveClick st (ApiResult.success ⟨some ip, some ex⟩)).final.improvedPrompt
      = ip ∧
    (handleImproveClick st (ApiResult.success ⟨some ip, some ex⟩)).final.explanation
      = ex ∧
    (handleImproveClick st (ApiResult.success ⟨some ip, some ex⟩)).final.statusText
      = "Prompt improved successfully!" := by
  have h1 : strTruthy (some ip) = true := by simp [strTruthy, hip]
  have h2 : strTruthy (some ex) = true := by simp [strTruthy, hex]
  simp [handleImproveClick, hk, hp, h1, h2, setLoadingState, clearOutputs]

/-- Witness for C5 at a concrete ready state holding stale error text in its
explanation field, which the success path overwrites. -/
theorem improve_success_populates_w :
    (handleImproveClick { stReady with explanation := "Error Details: old" }
        (ApiResult.success ⟨some "Better prompt", some "It is clearer."⟩)).final.improvedPrompt
      = "Better prompt" ∧
    (handleImproveClick { stReady with explanation := "Error Details: old" }
        (ApiResult.success ⟨some "Better prompt", some "It is clearer."⟩)).final.explanation
      = "It is clearer." ∧
    (handleImproveClick { stReady with explanation := "Error Details: old" }
        (ApiResult.success ⟨some "Better prompt", some "It is clearer."⟩)).final.statusText
      = "Prompt improved successfully!" :=
  improve_success_populates { stReady with explanation := "Error Details: old" }
    "Better prompt" "It is clearer." (by decide) (by decide) (by decide) (by decide)

/-- Counterexample to claim C3 as stated: at a concrete ready state, a
response missing the `improvedPrompt` field does NOT leave both output
fields empty — the error detail text is written into the explanation
field. -/
theorem improve_missing_field_claim_ce :
    ¬ ((handleImproveClick stReady
          (ApiResult.success ⟨none, some "x"⟩)).final.improvedPrompt = "" ∧
       (handleImproveClick stReady
          (ApiResult.success ⟨none, some "x"⟩)).final.explanation = "") := by
  decide

/-- Claim C3 (amended): a response whose parsed JSON is missing either
required field is treated as an error: the generic error status is set, the
improved-prompt output is left empty, and the explanation output is set to
the error detail text (not left empty). -/
theorem improve_missing_field (st : AppState) (parsed : ParsedResponse)
    (hk : strTruthy st.userApiKey = true) (hp : jsTrim st.originalPrompt ≠ "")
    (hmiss : parsed.improvedPrompt = none ∨ parsed.explanation = none) :
    (handleImproveClick st (ApiResult.success parsed)).final.improvedPrompt = "" ∧
    (handleImproveClick st (ApiResult.success parsed)).final.explanation =
      "Error Details: " ++ "Invalid response format from the AI." ∧
    (handleImproveClick st (ApiResult.success parsed)).final.statusText =
      "An error occurred. Please check the console and try again." := by
  have hcond :
      (strTruthy parsed.improvedPrompt && strTruthy parsed.explanation) = false := by
    rcases hmiss with h | h <;> simp [h, strTruthy]
  simp [handleImproveClick, hk, hp, hcond, handleImproveError,
    invalid_format_not_key_marker, setLoadingState, clearOutputs]

/-- Witness for the amended C3 at a concrete ready state. -/
theorem improve_missing_field_w :
    (handleImproveClick stReady
        (ApiResult.success ⟨none, some "x"⟩)).final.improvedPrompt = "" ∧
    (handleImproveClick stReady
        (ApiResult.success ⟨none, some "x"⟩)).final.explanation =
      "Error Details: " ++ "Invalid response format from the AI." ∧
    (handleImproveClick stReady
        (ApiResult.success ⟨none, some "x"⟩)).final.statusText =
      "An error occurred. Please check the console and try again." :=
  improve_missing_field stReady ⟨none, some "x"⟩ (by decide) (by decide)
    (Or.inl rfl)

/-- Counterexample to claim C4 as stated: at a concrete ready state, a
failure carrying the invalid-credential marker does NOT leave both output
fields empty — the error detail text is written into the explanation
field. -/
theorem improve_invalid_key_claim_ce :
    ¬ ((handleImproveClick stReady
          (ApiResult.failure "API key not valid")).final.improvedPrompt = "" ∧
       (handleImproveClick stReady
          (ApiResult.failure "API key not valid")).final.explanation = "") := by
  decide

/-- Claim C4 (amended): a failure whose error message contains the
credential-invalid marker sets the invalid-key status, reopens the
credential-entry modal, leaves the improved-prompt output empty, and writes
the error detail into the explanation output (not leaving it empty). -/
theorem improve_invalid_key (st : AppState) (msg : String)
    (hk : strTruthy st.userApiKey = true) (hp : jsTrim st.originalPrompt ≠ "")
    (hmsg : includes msg "API key not valid" = true) :
    (handleImproveClick st (ApiResult.failure msg)).final.statusText =
      "Your API Key is not valid. Please check it in settings." ∧
    (handleImproveClick st (ApiResult.failure msg)).final.modalHidden = false ∧
    (handleImproveClick st (ApiResult.failure msg)).final.improvedPrompt = "" ∧
    (handleImproveClick st (ApiResult.failure msg)).final.explanation =
      "Error Details: " ++ msg := by
  simp [handleImproveClick, hk, hp, handleImproveError, hmsg, showApiKeyModal,
    setLoadingState, clearOutputs]

/-- Witness for the amended C4 at a concrete ready state. -/
theorem improve_invalid_key_w :
    (handleImproveClick stReady
        (ApiResult.failure "API key not valid")).final.statusText =
      "Your API Key is not valid. Please check it in settings." ∧
    (handleImproveClick stReady
        (ApiResult.failure "API key not valid")).final.modalHidden = false ∧
    (handleImproveClick stReady
        (ApiResult.failure "API key not valid")).final.improvedPrompt = "" ∧
    (handleImproveClick stReady
        (ApiResult.failure "API key not valid")).final.explanation =
      "Error Details: " ++ "API key not valid" :=
  improve_invalid_key stReady "API key not valid" (by decide) (by decide)
    (by decide)

/-- Claim C6: a failure whose error message does not contain the
credential-invalid marker sets the generic error status and writes the raw
error detail into the explanation output field. -/
theorem improve_generic_error (st : AppState) (msg : String)
    (hk : strTruthy st.userApiKey = true) (hp : jsTrim st.originalPrompt ≠ "")
    (hmsg : includes msg "API key not valid" = false) :
    (handleImproveClick st (ApiResult.failure msg)).final.statusText =
      "An error occurred. Please check the console and try again." ∧
    (handleImproveClick st (ApiResult.failure msg)).final.explanation =
      "Error Details: " ++ msg := by
  simp [handleImproveClick, hk, hp, handleImproveError, hmsg,
    setLoadingState, clearOutputs]

/-- Witness for C6 at a concrete ready state with a network-style error. -/
theorem improve_generic_error_w :
    (handleImproveClick stReady
        (ApiResult.failure "fetch failed")).final.statusText =
      "An error occurred. Please check the console and try again." ∧
    (handleImproveClick stReady
        (ApiResult.failure "fetch failed")).final.explanation =
      "Error Details: " ++ "fetch failed" :=
  improve_generic_error stReady "fetch failed" (by decide) (by decide)
    (by decide)

/-- Claim C7: every invocation that passes validation issues the request with
the improve button disabled in the in-flight state, and the final state has
the button re-enabled, for every outcome of the request (success or
failure). -/
theorem improve_locks_button (st : AppState) (api : ApiResult)
    (hk : strTruthy st.userApiKey = true) (hp : jsTrim st.originalPrompt ≠ "") :
    networkCalled (handleImproveClick st api) = true ∧
    (∀ s, (handleImproveClick st api).inFlight = some s →
      s.improveDisabled = true) ∧
    (handleImproveClick st api).final.improveDisabled = false := by
  refine ⟨?_, ?_, ?_⟩
  · simp [handleImproveClick, networkCalled, hk, hp]
  · intro s hs
    simp [handleImproveClick, hk, hp, clearOutputs, setLoadingState] at hs
    simp [← hs]
  · simp [handleImproveClick, hk, hp, setLoadingState]

/-- Witness for C7 at a concrete ready state and a failing request. -/
theorem improve_locks_button_w :
    networkCalled (handleImproveClick stReady (ApiResult.failure "boom")) = true ∧
    (∀ s, (handleImproveClick stReady (ApiResult.failure "boom")).inFlight = some s →
      s.improveDisabled = true) ∧
    (handleImproveClick stReady (ApiResult.failure "boom")).final.improveDisabled
      = false :=
  improve_locks_button stReady (ApiResult.failure "boom") (by decide) (by decide)

/-- Claim C9: a response carrying both fields where either value is the empty
string fails the truthiness check and is handled as an error: the generic
error status is set, the improved-prompt output stays empty, and the
explanation output receives the invalid-format error detail instead of the
response values. -/
theorem improve_empty_field_rejected (st : AppState) (parsed : ParsedResponse)
    (hk : strTruthy st.userApiKey = true) (hp : jsTrim st.originalPrompt ≠ "")
    (hempty : parsed.improvedPrompt = some "" ∨ parsed.explanation = some "") :
    (handleImproveClick st (ApiResult.success parsed)).final.improvedPrompt = "" ∧
    (handleImproveClick st (ApiResult.success parsed)).final.explanation =
      "Error Details: " ++ "Invalid response format from the AI." ∧
    (handleImproveClick st (ApiResult.success parsed)).final.statusText =
      "An error occurred. Please check the console and try again." := by
  have hcond :
      (strTruthy parsed.improvedPrompt && strTruthy parsed.explanation) = false := by
    rcases hempty with h | h <;> simp [h, strTruthy]
  simp [handleImproveClick, hk, hp, hcond, handleImproveError,
    invalid_format_not_key_marker, setLoadingState, clearOutputs]

/-- Witness for C9 at a concrete ready state: both fields present, the
explanation field empty. -/
theorem improve_empty_field_rejected_w :
    (handleImproveClick stReady
        (ApiResult.success ⟨some "Better prompt", some ""⟩)).final.improvedPrompt
      = "" ∧
    (handleImproveClick stReady
        (ApiResult.success ⟨some "Better prompt", some ""⟩)).final.explanation =
      "Error Details: " ++ "Invalid response format from the AI." ∧
    (handleImproveClick stReady
        (ApiResult.success ⟨some "Better prompt", some ""⟩)).final.statusText =
      "An error occurred. Please check the console and try again." :=
  improve_empty_field_rejected stReady ⟨some "Better prompt", some ""⟩
    (by decide) (by decide) (Or.inr rfl)

/-- Claim C8: saving a credential trims the modal input first; a non-empty
trimmed value is stored in memory and under the fixed local-storage key and
the modal is closed, while an input trimming to empty clears the in-memory
key, removes the stored value, and leaves the modal state untouched (so a
modal that was open stays open). -/
theorem saveApiKey_spec (st : AppState) :
    (jsTrim st.apiKeyInput ≠ "" →
      (saveApiKey st).userApiKey = some (jsTrim st.apiKeyInput) ∧
      (saveApiKey st).storage = some (jsTrim st.apiKeyInput) ∧
      (saveApiKey st).modalHidden = true) ∧
    (jsTrim st.apiKeyInput = "" →
      (saveApiKey st).userApiKey = none ∧
      (saveApiKey st).storage = none ∧
      (saveApiKey st).modalHidden = st.modalHidden) := by
  constructor
  · intro h
    simp [saveApiKey, h, hideApiKeyModal, updateUiForApiKey]
  · intro h
    simp [saveApiKey, h, updateUiForApiKey]

/-- Witness for C8: the padded input `" abc "` is trimmed to `"abc"` on both
sides and stored, closing the modal. -/
theorem saveApiKey_spec_w :
    (saveApiKey { st0 with apiKeyInput := " abc " }).userApiKey = some "abc" ∧
    (saveApiKey { st0 with apiKeyInput := " abc " }).storage = some "abc" ∧
    (saveApiKey { st0 with apiKeyInput := " abc " }).modalHidden = true :=
  (saveApiKey_spec { st0 with apiKeyInput := " abc " }).1 (by decide)

/-- Counterexample to claim C10 as stated: initializing from a local storage
holding the empty string leaves a non-null in-memory key while the improve
button stays disabled, so "the trigger control is enabled if and only if the
credential is present" fails. -/
theorem credential_sync_claim_ce :
    ¬ (((initializeApp { st0 with storage := some "" }).improveDisabled = false)
        ↔ (initializeApp { st0 with storage := some "" }).userApiKey ≠ none) := by
  decide

/-- Claim C10 (amended): after initialization and after every save, the
in-memory key equals the stored value (so it is non-null exactly when a value
is stored, and equal to it); the improve button is enabled exactly when the
credential is present AND non-empty (truthy), rather than merely present. -/
theorem credential_sync (st : AppState) :
    ((initializeApp st).userApiKey = (initializeApp st).storage ∧
      ((initializeApp st).improveDisabled = false ↔
        strTruthy (initializeApp st).userApiKey = true)) ∧
    ((saveApiKey st).userApiKey = (saveApiKey st).storage ∧
      ((saveApiKey st).improveDisabled = false ↔
        strTruthy (saveApiKey st).userApiKey = true)) := by
  constructor
  · cases hb : strTruthy st.storage <;>
      simp [initializeApp, updateUiForApiKey, showApiKeyModal, hb]
  · by_cases h : jsTrim st.apiKeyInput = "" <;>
      simp [saveApiKey, h, hideApiKeyModal, updateUiForApiKey, strTruthy]

/-- Witness for the amended C10 at a concrete blank state. -/
theorem credential_sync_w :
    ((initializeApp st0).userApiKey = (initializeApp st0).storage ∧
      ((initializeApp st0).improveDisabled = false ↔
        strTruthy (initializeApp st0).userApiKey = true)) ∧
    ((saveApiKey st0).userApiKey = (saveApiKey st0).storage ∧
      ((saveApiKey st0).improveDisabled = false ↔
        strTruthy (saveApiKey st0).userApiKey = true)) :=
  credential_sync st0
